import Mathlib

/-!
# Verification of the OneDrive-image-analysis relay service (`main.py`)

Shallow embedding of the single source file `main.py`: a FastAPI service that
authenticates a bearer credential, fetches an image, forwards it to the Gemini
API and normalizes the textual reply into a fixed five-field response.

The embedding models:
* Python's `json.loads` (default settings: JSON values of any kind at top
  level, the `NaN`/`Infinity`/`-Infinity` extensions, strict rejection of
  control characters inside strings, no trailing data).  Numbers are kept as
  their source tokens, since no property here depends on float arithmetic.
  One known deviation: a lone UTF-16 surrogate produced by a `\uXXXX` escape
  is replaced by U+FFFD, because Lean strings cannot hold lone surrogates;
  Python keeps the surrogate.  No theorem below depends on that case.
* Python `str.strip()` restricted to ASCII whitespace (space, \t, \n, \r,
  \x0b, \x0c); the claims only exercise these.
* Python truthiness (`or []`), `dict.get`, `str(...)` on JSON-decoded values
  (`str` of lists/dicts approximates `repr` without escaping; no theorem
  depends on that case).
* The request handler `analyze_onedrive_image` as a function of an
  environment (configured keys, authorization header, statuses returned by
  the two outbound calls, raw reply text), paired with a flag recording
  whether the inference call was issued.
-/

/-- JSON values as produced by Python's `json.loads`.  Objects keep their
key/value pairs in source order (duplicates included; lookup takes the last
binding, matching `dict` update semantics).  Numbers keep the matched source
token (e.g. `"42"`, `"-0.5e3"`, `"NaN"`). -/
inductive Json where
  | null : Json
  | bool (b : Bool) : Json
  | num (tok : String) : Json
  | str (s : String) : Json
  | arr (xs : List Json) : Json
  | obj (kvs : List (String × Json)) : Json

/-- The character `{` (written via its code to keep literals uniform with the
other structural characters). -/
def lbraceChar : Char := Char.ofNat 123

/-- The character `}`. -/
def rbraceChar : Char := Char.ofNat 125

/-- The character `[`. -/
def lbrackChar : Char := Char.ofNat 91

/-- The character `]`. -/
def rbrackChar : Char := Char.ofNat 93

/-- The character `"`. -/
def quoteChar : Char := Char.ofNat 34

/-- The character `\`. -/
def backslashChar : Char := Char.ofNat 92

/-- U+FFFD, used for lone surrogates (see the header note). -/
def replacementChar : Char := Char.ofNat 0xfffd

/-- JSON insignificant whitespace (RFC 8259 / Python `json`): space, tab,
line feed, carriage return. -/
def isJsonWs (c : Char) : Bool :=
  c == ' ' || c == '\t' || c == '\n' || c == '\r'

/-- Drop leading JSON whitespace. -/
def skipJWs (cs : List Char) : List Char := cs.dropWhile isJsonWs

/-- Hexadecimal digit value, as accepted by the `\uXXXX` escape. -/
def hexVal (c : Char) : Option Nat :=
  if '0' ≤ c ∧ c ≤ '9' then some (c.toNat - '0'.toNat)
  else if 'a' ≤ c ∧ c ≤ 'f' then some (c.toNat - 'a'.toNat + 10)
  else if 'A' ≤ c ∧ c ≤ 'F' then some (c.toNat - 'A'.toNat + 10)
  else none

/-- Parse exactly four hex digits (the payload of a `\uXXXX` escape). -/
def parseHex4 : List Char → Option (Nat × List Char)
  | c1 :: c2 :: c3 :: c4 :: rest =>
    match hexVal c1, hexVal c2, hexVal c3, hexVal c4 with
    | some h1, some h2, some h3, some h4 =>
      some (((h1 * 16 + h2) * 16 + h3) * 16 + h4, rest)
    | _, _, _, _ => none
  | _ => none

/-- Match a literal character sequence at the head of the input
(`null`, `true`, `false`, `NaN`, `Infinity` tails). -/
def stripLit (lit : List Char) (cs : List Char) : Option (List Char) :=
  if lit.isPrefixOf cs then some (cs.drop lit.length) else none

/-- Body of a JSON string (after the opening quote), per Python's
`py_scanstring` with `strict=True`: escapes `\" \\ \/ \b \f \n \r \t \uXXXX`,
raw control characters rejected, surrogate pairs combined.  `acc` holds the
decoded characters in reverse.  Fuel bounds the recursion; one unit is spent
per step and every step consumes at least one input character. -/
def parseStringBody : Nat → List Char → List Char → Option (String × List Char)
  | 0, _, _ => none
  | _ + 1, _, [] => none
  | fuel + 1, acc, c :: rest =>
    if c = quoteChar then some (String.mk acc.reverse, rest)
    else if c = backslashChar then
      match rest with
      | [] => none
      | e :: r2 =>
        if e = quoteChar then parseStringBody fuel (quoteChar :: acc) r2
        else if e = backslashChar then parseStringBody fuel (backslashChar :: acc) r2
        else if e = '/' then parseStringBody fuel ('/' :: acc) r2
        else if e = 'b' then parseStringBody fuel (Char.ofNat 8 :: acc) r2
        else if e = 'f' then parseStringBody fuel (Char.ofNat 12 :: acc) r2
        else if e = 'n' then parseStringBody fuel ('\n' :: acc) r2
        else if e = 'r' then parseStringBody fuel ('\r' :: acc) r2
        else if e = 't' then parseStringBody fuel ('\t' :: acc) r2
        else if e = 'u' then
          match parseHex4 r2 with
          | none => none
          | some (n, r3) =>
            if 0xd800 ≤ n ∧ n ≤ 0xdbff then
              match r3 with
              | b1 :: b2 :: r4 =>
                if b1 = backslashChar ∧ b2 = 'u' then
                  match parseHex4 r4 with
                  | some (m, r5) =>
                    if 0xdc00 ≤ m ∧ m ≤ 0xdfff then
                      parseStringBody fuel
                        (Char.ofNat (0x10000 + (n - 0xd800) * 0x400 + (m - 0xdc00)) :: acc) r5
                    else parseStringBody fuel (replacementChar :: acc) r3
                  | none => parseStringBody fuel (replacementChar :: acc) r3
                else parseStringBody fuel (replacementChar :: acc) r3
              | _ => parseStringBody fuel (replacementChar :: acc) r3
            else if 0xdc00 ≤ n ∧ n ≤ 0xdfff then
              parseStringBody fuel (replacementChar :: acc) r3
            else parseStringBody fuel (Char.ofNat n :: acc) r3
        else none
    else if c.toNat < 0x20 then none
    else parseStringBody fuel (c :: acc) rest

/-- Integer part of a JSON number: `0`, or a nonzero digit followed by
digits (the regex `0|[1-9]\d*`).  Returns the consumed digits and the rest. -/
def parseIntPart : List Char → Option (List Char × List Char)
  | [] => none
  | c :: rest =>
    if c = '0' then some ([c], rest)
    else if c.isDigit then
      let ds := rest.takeWhile Char.isDigit
      some (c :: ds, rest.drop ds.length)
    else none

/-- Optional fraction part (`(\.\d+)?`): consumed characters and the rest. -/
def parseFracPart (cs : List Char) : List Char × List Char :=
  match cs with
  | c :: rest =>
    if c = '.' then
      match rest.takeWhile Char.isDigit with
      | [] => ([], cs)
      | ds => (c :: ds, rest.drop ds.length)
    else ([], cs)
  | [] => ([], cs)

/-- Optional exponent part (`([eE][-+]?\d+)?`). -/
def parseExpPart (cs : List Char) : List Char × List Char :=
  match cs with
  | c :: rest =>
    if c = 'e' ∨ c = 'E' then
      match rest with
      | s :: rest2 =>
        if s = '+' ∨ s = '-' then
          match rest2.takeWhile Char.isDigit with
          | [] => ([], cs)
          | ds => (c :: s :: ds, rest2.drop ds.length)
        else
          match rest.takeWhile Char.isDigit with
          | [] => ([], cs)
          | ds => (c :: ds, rest.drop ds.length)
      | [] => ([], cs)
    else ([], cs)
  | [] => ([], cs)

/-- A JSON number token per Python's `NUMBER_RE`
(`(-?(?:0|[1-9]\d*))(\.\d+)?([eE][-+]?\d+)?`). -/
def parseNumberToken (cs : List Char) : Option (String × List Char) :=
  let (sign, cs1) :=
    match cs with
    | c :: r => if c = '-' then ([c], r) else (([] : List Char), cs)
    | [] => (([] : List Char), cs)
  match parseIntPart cs1 with
  | none => none
  | some (ip, cs2) =>
    let (fp, cs3) := parseFracPart cs2
    let (ep, cs4) := parseExpPart cs3
    some (String.mk (sign ++ ip ++ fp ++ ep), cs4)

mutual

/-- One JSON value, starting at the first non-whitespace character, per
Python's scanner: string, object, array, `null`, `true`, `false`, a number,
or the non-standard constants `NaN`, `Infinity`, `-Infinity`.  Returns the
value and the unconsumed input. -/
def parseJValue : Nat → List Char → Option (Json × List Char)
  | 0, _ => none
  | fuel + 1, cs =>
    match skipJWs cs with
    | [] => none
    | c :: rest =>
      if c = quoteChar then
        match parseStringBody (rest.length + 1) [] rest with
        | some (s, r) => some (Json.str s, r)
        | none => none
      else if c = lbraceChar then
        match skipJWs rest with
        | c2 :: r2 =>
          if c2 = rbraceChar then some (Json.obj [], r2)
          else parseJMembers fuel (c2 :: r2) []
        | [] => none
      else if c = lbrackChar then
        match skipJWs rest with
        | c2 :: r2 =>
          if c2 = rbrackChar then some (Json.arr [], r2)
          else parseJItems fuel (c2 :: r2) []
        | [] => none
      else if c = 'n' then
        (stripLit ['u', 'l', 'l'] rest).map (fun r => (Json.null, r))
      else if c = 't' then
        (stripLit ['r', 'u', 'e'] rest).map (fun r => (Json.bool true, r))
      else if c = 'f' then
        (stripLit ['a', 'l', 's', 'e'] rest).map (fun r => (Json.bool false, r))
      else if c = 'N' then
        (stripLit ['a', 'N'] rest).map (fun r => (Json.num "NaN", r))
      else if c = 'I' then
        (stripLit ['n', 'f', 'i', 'n', 'i', 't', 'y'] rest).map
          (fun r => (Json.num "Infinity", r))
      else
        match parseNumberToken (c :: rest) with
        | some (tok, r) => some (Json.num tok, r)
        | none =>
          if c = '-' then
            (stripLit ['I', 'n', 'f', 'i', 'n', 'i', 't', 'y'] rest).map
              (fun r => (Json.num "-Infinity", r))
          else none

/-- Object members after at least one member is known to follow (Python's
object scanner: key string, `:`, value, then `,` and the next key or `}`).
`acc` holds the members parsed so far, in order. -/
def parseJMembers : Nat → List Char → List (String × Json) → Option (Json × List Char)
  | 0, _, _ => none
  | _ + 1, [], _ => none
  | fuel + 1, c :: rest, acc =>
    if c = quoteChar then
      match parseStringBody (rest.length + 1) [] rest with
      | none => none
      | some (k, r1) =>
        match skipJWs r1 with
        | [] => none
        | c2 :: r2 =>
          if c2 = ':' then
            match parseJValue fuel r2 with
            | none => none
            | some (v, r3) =>
              match skipJWs r3 with
              | [] => none
              | c3 :: r4 =>
                if c3 = ',' then parseJMembers fuel (skipJWs r4) (acc ++ [(k, v)])
                else if c3 = rbraceChar then some (Json.obj (acc ++ [(k, v)]), r4)
                else none
          else none
    else none

/-- Array items after at least one item is known to follow. -/
def parseJItems : Nat → List Char → List Json → Option (Json × List Char)
  | 0, _, _ => none
  | fuel + 1, cs, acc =>
    match parseJValue fuel cs with
    | none => none
    | some (v, rest) =>
      match skipJWs rest with
      | [] => none
      | c :: r2 =>
        if c = ',' then parseJItems fuel (skipJWs r2) (acc ++ [v])
        else if c = rbrackChar then some (Json.arr (acc ++ [v]), r2)
        else none

end

/-- Python's `json.loads` on the embedded JSON values: parse one value
surrounded by optional whitespace; any other trailing data is an error
(`none`).  The fuel `2 * length + 4` dominates the recursion depth, since
every fuel-consuming step is tied to the consumption of at least one input
character through at most two nested calls. -/
def json_loads (s : String) : Option Json :=
  let cs := s.toList
  match parseJValue (2 * cs.length + 4) cs with
  | some (v, rest) => if skipJWs rest = [] then some v else none
  | none => none

/-- Characters stripped by Python's `str.strip()`, restricted to ASCII
(space, tab, newline, carriage return, vertical tab, form feed). -/
def isPyWs (c : Char) : Bool :=
  c == ' ' || c == '\t' || c == '\n' || c == '\r' ||
  c == Char.ofNat 11 || c == Char.ofNat 12

/-- Python `str.strip()` (ASCII whitespace). -/
def pyStrip (s : String) : String :=
  String.mk (((s.toList.dropWhile isPyWs).reverse.dropWhile isPyWs).reverse)

/-- Lookup in a decoded JSON object, mirroring Python `dict` semantics for
the key/value list kept in source order: a duplicated key was overwritten by
its later occurrence, so the LAST binding wins. -/
def jLookup (kvs : List (String × Json)) (k : String) : Option Json :=
  match kvs with
  | [] => none
  | (k0, v0) :: rest =>
    match jLookup rest k with
    | some w => some w
    | none => if k0 = k then some v0 else none

/-- Python `dict.get(k, d)`. -/
def dictGet (kvs : List (String × Json)) (k : String) (d : Json) : Json :=
  (jLookup kvs k).getD d

/-- Whether a JSON number token denotes zero (sign ignored, exponent
irrelevant): every digit of the mantissa is `0`.  The constants `NaN`,
`Infinity`, `-Infinity` are nonzero. -/
def numTokIsZero (tok : String) : Bool :=
  let mantissa := tok.toList.takeWhile (fun c => c ≠ 'e' ∧ c ≠ 'E')
  mantissa.any Char.isDigit && mantissa.all (fun c => !c.isDigit || c = '0')

/-- Python truthiness of a JSON-decoded value (`None`, `False`, zero, empty
string/list/dict are falsy). -/
def pyTruthy : Json → Bool
  | Json.null => false
  | Json.bool b => b
  | Json.num tok => !numTokIsZero tok
  | Json.str s => !s.isEmpty
  | Json.arr xs => !xs.isEmpty
  | Json.obj kvs => !kvs.isEmpty

/-- Python `str` of a number that came from a JSON token: for a pure integer
token, the canonical decimal form (`-0` prints as `0`); other tokens are
approximated by the token itself (float formatting is irrelevant to every
theorem below). -/
def pyNumStr (tok : String) : String :=
  let cs := tok.toList
  let digits := if cs.head? = some '-' then cs.drop 1 else cs
  if digits ≠ [] ∧ digits.all Char.isDigit then
    let n : ℤ := (digits.foldl (fun a c => a * 10 + (c.toNat - '0'.toNat)) 0 : ℕ)
    toString (if cs.head? = some '-' then -n else n)
  else tok

mutual

/-- Python `str()` applied to a JSON-decoded value: identity on strings,
`True`/`False`/`None` for booleans and null, decimal for integers; lists and
dicts print via `repr` of the elements (approximated without escaping —
unused by the theorems below). -/
def pyStr : Json → String
  | Json.str s => s
  | Json.null => "None"
  | Json.bool true => "True"
  | Json.bool false => "False"
  | Json.num tok => pyNumStr tok
  | Json.arr xs => "[" ++ String.intercalate ", " (pyReprList xs) ++ "]"
  | Json.obj kvs => "\x7b" ++ String.intercalate ", " (pyReprMembers kvs) ++ "\x7d"

/-- Python `repr()` of a JSON-decoded value (strings quoted). -/
def pyRepr : Json → String
  | Json.str s => "'" ++ s ++ "'"
  | Json.null => "None"
  | Json.bool true => "True"
  | Json.bool false => "False"
  | Json.num tok => pyNumStr tok
  | Json.arr xs => "[" ++ String.intercalate ", " (pyReprList xs) ++ "]"
  | Json.obj kvs => "\x7b" ++ String.intercalate ", " (pyReprMembers kvs) ++ "\x7d"

/-- `repr` of each element of a decoded list. -/
def pyReprList : List Json → List String
  | [] => []
  | x :: xs => pyRepr x :: pyReprList xs

/-- `repr` of each `key: value` member of a decoded dict. -/
def pyReprMembers : List (String × Json) → List String
  | [] => []
  | (k, v) :: kvs => ("'" ++ k ++ "': " ++ pyRepr v) :: pyReprMembers kvs

end

/-- Pydantic validation of a value against `str` (v2 semantics: only an
actual string is accepted). -/
def asPyStr : Json → Option String
  | Json.str s => some s
  | _ => none

/-- Element-wise validation of a decoded list against `list[str]`. -/
def strListOf : List Json → Option (List String)
  | [] => some []
  | x :: xs =>
    match asPyStr x, strListOf xs with
    | some s, some rest => some (s :: rest)
    | _, _ => none

/-- Pydantic validation of a value against `list[str]`: a list whose
elements are all strings; anything else is a `ValidationError`. -/
def coerceStrList : Json → Option (List String)
  | Json.arr xs => strListOf xs
  | _ => none

/-- The `AnalyzeResponse` model of `main.py`: five fields, `answer` required,
the rest defaulting to empty string / empty list. -/
structure AnalyzeResponse where
  answer : String
  imageSummary : String
  extractedText : String
  detectedLanguages : List String
  safetyNotes : String
deriving DecidableEq, Repr

/-- The fixed marker recorded in `safetyNotes` by the fallback path. -/
def fallbackMarker : String := "Gemini did not return JSON; fallback used."

/-- The synthetic dict built by the fallback branch of
`_extract_text_from_gemini` (source lines 78–84), applied to the stripped
raw text `t`. -/
def fallbackObj (t : String) : Json :=
  Json.obj
    [("answer", Json.str t),
     ("imageSummary", Json.str ""),
     ("extractedText", Json.str ""),
     ("detectedLanguages", Json.arr []),
     ("safetyNotes", Json.str fallbackMarker)]

/-- Index of the first occurrence of `c` (Python `str.find`, as an `Option`
instead of `-1`). -/
def findIdxOfChar (c : Char) (cs : List Char) : Option Nat :=
  cs.findIdx? (fun x => x = c)

/-- Index of the last occurrence of `c` (Python `str.rfind`). -/
def rfindIdxOfChar (c : Char) (cs : List Char) : Option Nat :=
  match (cs.reverse).findIdx? (fun x => x = c) with
  | some i => some (cs.length - 1 - i)
  | none => none

/-- `_extract_text_from_gemini` (source lines 54–84): strip the raw text;
try a direct `json.loads`; otherwise try the inclusive substring between the
first `{` and the last `}` when the last comes after the first; otherwise
build the synthetic fallback dict. -/
def extractTextFromGemini (raw_text : String) : Json :=
  let t := pyStrip raw_text
  match json_loads t with
  | some v => v
  | none =>
    let cs := t.toList
    match findIdxOfChar lbraceChar cs, rfindIdxOfChar rbraceChar cs with
    | some start, some stop =>
      if start < stop then
        match json_loads (String.mk ((cs.drop start).take (stop + 1 - start))) with
        | some v => v
        | none => fallbackObj t
      else fallbackObj t
    | some _, none => fallbackObj t
    | none, _ => fallbackObj t

/-- Spec-side definition (refinement target for the normalization chain's
second stage), following §4.3 step 2 of the spec: locate the first brace and
the last closing brace of the trimmed text; when both exist with the last
after the first, the result of parsing the inclusive substring between them. -/
def specStage2 (t : String) : Option Json :=
  let cs := t.toList
  match findIdxOfChar lbraceChar cs, rfindIdxOfChar rbraceChar cs with
  | some start, some stop =>
    if start < stop then
      json_loads (String.mk ((cs.drop start).take (stop + 1 - start)))
    else none
  | _, _ => none

/-- The shaping of the parsed value into `AnalyzeResponse` (source lines
176–182): each string field is `str(parsed.get(key, ""))`, the language list
is `parsed.get("detectedLanguages", []) or []` validated against
`list[str]`.  `none` models the two ways this code raises: `parsed` not
being a dict (`AttributeError` on `.get`) and the language value failing
pydantic validation. -/
def shapeResponse (parsed : Json) : Option AnalyzeResponse :=
  match parsed with
  | Json.obj kvs =>
    let langsRaw := dictGet kvs "detectedLanguages" (Json.arr [])
    let langsVal := if pyTruthy langsRaw then langsRaw else Json.arr []
    match coerceStrList langsVal with
    | some langs =>
      some
        { answer := pyStr (dictGet kvs "answer" (Json.str ""))
          imageSummary := pyStr (dictGet kvs "imageSummary" (Json.str ""))
          extractedText := pyStr (dictGet kvs "extractedText" (Json.str ""))
          detectedLanguages := langs
          safetyNotes := pyStr (dictGet kvs "safetyNotes" (Json.str "")) }
    | none => none
  | _ => none

/-- The whole response-normalization path applied to the raw reply text:
`_extract_text_from_gemini` followed by the `AnalyzeResponse(...)` shaping. -/
def normalizeResponse (raw_text : String) : Option AnalyzeResponse :=
  shapeResponse (extractTextFromGemini raw_text)

/-- An HTTP error as raised by `HTTPException(status_code, detail)`. -/
structure HTTPError where
  status : Nat
  detail : String
deriving DecidableEq, Repr

/-- `_check_api_key` (source lines 34–41): read the authorization header
(`""` when absent), fail 500 when the configured key is empty, fail 403 when
the stripped header differs from `"Bearer " + API_KEY`. -/
def checkApiKey (authHeader : Option String) (apiKey : String) : Except HTTPError Unit :=
  let auth := authHeader.getD ""
  let expected := "Bearer " ++ apiKey
  if apiKey = "" then Except.error ⟨500, "Server API_KEY not configured"⟩
  else if pyStrip auth ≠ expected then Except.error ⟨403, "Forbidden"⟩
  else Except.ok ()

/-- Python `str.lower()` restricted to ASCII (the extensions the claims
exercise are ASCII). -/
def pyLower (s : String) : String := String.mk (s.toList.map Char.toLower)

/-- Python `str.endswith(pat)`. -/
def pyEndsWith (s pat : String) : Bool := pat.toList.isSuffixOf s.toList

/-- `_guess_mime` (source lines 43–52). -/
def guessMime (url : String) : String :=
  let u := pyLower url
  if pyEndsWith u ".png" then "image/png"
  else if pyEndsWith u ".jpg" || pyEndsWith u ".jpeg" then "image/jpeg"
  else if pyEndsWith u ".webp" then "image/webp"
  else "image/png"

/-- Environment of one request to `/analyze-onedrive-image`: the two
configured secrets, the request's authorization header, and the behavior of
the two outbound calls (status of the image GET, status/body of the Gemini
POST, and the raw reply text extracted from the Gemini envelope). -/
structure Env where
  apiKey : String
  geminiKey : String
  authHeader : Option String
  imgStatus : Nat
  gStatus : Nat
  gBody : String
  gRawText : String

/-- `analyze_onedrive_image` (source lines 86–182) as a function of the
request environment.  The second component records whether the Gemini call
was issued.  A `none` from the shaping (the `AttributeError` /
`ValidationError` cases) surfaces as the framework's generic 500. -/
def analyzeHandler (env : Env) : Except HTTPError AnalyzeResponse × Bool :=
  match checkApiKey env.authHeader env.apiKey with
  | Except.error e => (Except.error e, false)
  | Except.ok _ =>
    if env.geminiKey = "" then
      (Except.error ⟨500, "GEMINI_API_KEY not configured"⟩, false)
    else if env.imgStatus ≠ 200 then
      (Except.error
        ⟨404, "Failed to fetch image from OneDrive (status " ++
          toString env.imgStatus ++ ")"⟩, false)
    else if env.gStatus ≠ 200 then
      (Except.error
        ⟨500, "Gemini error " ++ toString env.gStatus ++ ": " ++ env.gBody⟩, true)
    else
      match normalizeResponse env.gRawText with
      | some r => (Except.ok r, true)
      | none => (Except.error ⟨500, "Internal Server Error"⟩, true)

/-! ## Helper lemmas -/

/-- The extractor is exactly the ordered chain: direct parse, then the
brace-substring stage, then the fallback object. -/
theorem extract_eq_chain (raw : String) :
    extractTextFromGemini raw =
      match json_loads (pyStrip raw) with
      | some v => v
      | none =>
        match specStage2 (pyStrip raw) with
        | some v => v
        | none => fallbackObj (pyStrip raw) := by
  simp only [extractTextFromGemini, specStage2]
  cases hj : json_loads (pyStrip raw) with
  | some v => rfl
  | none =>
    cases hf : findIdxOfChar lbraceChar (pyStrip raw).toList with
    | none => rfl
    | some start =>
      cases hg : rfindIdxOfChar rbraceChar (pyStrip raw).toList with
      | none => rfl
      | some stop =>
        by_cases hlt : start < stop
        · simp only [if_pos hlt]
        · simp only [if_neg hlt]

/-- Stage 1: a successful direct parse of the stripped text is returned. -/
theorem extract_direct {raw : String} {v : Json}
    (h : json_loads (pyStrip raw) = some v) :
    extractTextFromGemini raw = v := by
  rw [extract_eq_chain raw, h]

/-- Stage 2: when the direct parse fails and the brace substring parses,
that value is returned. -/
theorem extract_stage2 {raw : String} {v : Json}
    (h1 : json_loads (pyStrip raw) = none)
    (h2 : specStage2 (pyStrip raw) = some v) :
    extractTextFromGemini raw = v := by
  rw [extract_eq_chain raw, h1, h2]

/-- Stage 3: when both parse attempts fail, the synthetic fallback object is
returned. -/
theorem extract_fallback {raw : String}
    (h1 : json_loads (pyStrip raw) = none)
    (h2 : specStage2 (pyStrip raw) = none) :
    extractTextFromGemini raw = fallbackObj (pyStrip raw) := by
  rw [extract_eq_chain raw, h1, h2]

/-- Shaping the fallback object yields the synthetic response. -/
theorem shape_fallback (t : String) :
    shapeResponse (fallbackObj t) = some ⟨t, "", "", [], fallbackMarker⟩ := rfl

/-- Pydantic accepts a list of strings and returns it unchanged. -/
theorem coerceStrList_map_str (ds : List String) :
    coerceStrList (Json.arr (ds.map Json.str)) = some ds := by
  induction ds with
  | nil => rfl
  | cons d ds ih =>
    simp only [coerceStrList, List.map_cons, strListOf, asPyStr] at *
    simp [ih]

-- Concrete evaluations of the embedded definitions (sanity checks).
example : json_loads "null" = some Json.null := by rfl
example : json_loads " 42 " = some (Json.num "42") := by rfl
example : json_loads "\x7b\"a\": [1, true, \"x\"]\x7d" =
    some (Json.obj [("a", Json.arr [Json.num "1", Json.bool true, Json.str "x"])]) := by rfl
example : json_loads "noise" = none := by rfl
example : json_loads "1." = none := by rfl
example : pyStrip "  a b \n" = "a b" := by rfl
example :
    extractTextFromGemini "noise \x7b\"answer\":\"x\"\x7d trailing" =
      Json.obj [("answer", Json.str "x")] := by rfl
example :
    normalizeResponse "noise \x7b\"answer\":\"x\"\x7d trailing" =
      some ⟨"x", "", "", [], ""⟩ := by rfl
example : normalizeResponse "null" = none := by rfl
example : normalizeResponse "plain unstructured reply" =
    some ⟨"plain unstructured reply", "", "", [], fallbackMarker⟩ := by rfl
example : normalizeResponse " x " = some ⟨"x", "", "", [], fallbackMarker⟩ := by rfl
example : checkApiKey (some " Bearer k ") "k" = Except.ok () := by rfl
example : guessMime "A.PnG" = "image/png" := by rfl
example : guessMime "a.gif" = "image/png" := by rfl
example : guessMime "b.JPeG" = "image/jpeg" := by rfl
example : pyStr (Json.num "-0") = "0" := by rfl
example : pyStr (Json.num "42") = "42" := by rfl

/-! ## Claims -/

/-- C1: the claim states that the response-normalization path always
produces an `AnalyzeResponse` without raising.  It fails on the code: the
upstream reply `"null"` is valid JSON, so the direct-parse stage returns the
non-dict value `None`, and the five-field shaping then calls `.get` on it
and raises (`AttributeError`, modelled as `none`) — the malformed reply IS
surfaced as an error, contradicting `_extract_text_from_gemini`'s own
`Dict[str, Any]` return type hint. -/
theorem C1_normalization_fails_on_nonobject_json :
    extractTextFromGemini "null" = Json.null ∧ normalizeResponse "null" = none :=
  ⟨rfl, rfl⟩

/-- C4: the response-normalization algorithm is the exact ordered chain —
(1) a successful strict parse of the trimmed text is used directly; (2)
otherwise the inclusive substring between the first brace and the last
closing brace (when the last comes after the first) is parsed and used on
success; and on the raw text `noise {"answer":"x"} trailing` the chain
recovers the embedded object with all remaining fields defaulted. -/
theorem C4_normalization_chain (raw : String) (v : Json) :
    (json_loads (pyStrip raw) = some v → extractTextFromGemini raw = v) ∧
    (json_loads (pyStrip raw) = none → specStage2 (pyStrip raw) = some v →
      extractTextFromGemini raw = v) ∧
    normalizeResponse "noise \x7b\"answer\":\"x\"\x7d trailing" =
      some ⟨"x", "", "", [], ""⟩ :=
  ⟨extract_direct, extract_stage2, rfl⟩

/-- C4 witness: both stages of the chain exercised at concrete inputs. -/
theorem C4_normalization_chain_witness :
    extractTextFromGemini "\x7b\"answer\":\"x\"\x7d" =
      Json.obj [("answer", Json.str "x")] ∧
    extractTextFromGemini "zz \x7b\"a\":1\x7d" = Json.obj [("a", Json.num "1")] :=
  ⟨(C4_normalization_chain "\x7b\"answer\":\"x\"\x7d"
      (Json.obj [("answer", Json.str "x")])).1 rfl,
   (C4_normalization_chain "zz \x7b\"a\":1\x7d"
      (Json.obj [("a", Json.num "1")])).2.1 rfl rfl⟩

/-- C5 counterexample: the claim says the fallback object's `answer` is the
ENTIRE raw text, but `_extract_text_from_gemini` strips the text first, so
for the raw text `" plain unstructured reply "` (note the surrounding
spaces) the answer is the trimmed text, not the entire raw text. -/
theorem C5_fallback_counterexample :
    normalizeResponse " plain unstructured reply " =
      some ⟨"plain unstructured reply", "", "", [], fallbackMarker⟩ ∧
    "plain unstructured reply" ≠ " plain unstructured reply " :=
  ⟨rfl, by decide⟩

/-- C5 (amended): when both JSON-parse attempts fail, the normalizer yields
the synthetic object whose `answer` is the TRIMMED raw text (equal to the
entire raw text whenever it carries no surrounding whitespace), whose
`imageSummary` and `extractedText` are empty, whose `detectedLanguages` is
the empty list, and whose `safetyNotes` is the fixed fallback marker. -/
theorem C5_fallback_shape (raw : String)
    (h1 : json_loads (pyStrip raw) = none)
    (h2 : specStage2 (pyStrip raw) = none) :
    extractTextFromGemini raw = fallbackObj (pyStrip raw) ∧
    normalizeResponse raw = some ⟨pyStrip raw, "", "", [], fallbackMarker⟩ := by
  refine ⟨extract_fallback h1 h2, ?_⟩
  unfold normalizeResponse
  rw [extract_fallback h1 h2, shape_fallback]

/-- C5 witness: the spec's own example input, which both parse stages
reject. -/
theorem C5_fallback_shape_witness :
    normalizeResponse "plain unstructured reply" =
      some ⟨"plain unstructured reply", "", "", [], fallbackMarker⟩ :=
  (C5_fallback_shape "plain unstructured reply" rfl rfl).2

/-- C2 counterexample: the claim says authentication succeeds EXACTLY when
the authorization header equals the literal `"Bearer " + secret`, but
`_check_api_key` strips the header first, so the header `" Bearer k "`
(surrounding spaces) is accepted although it differs from the literal
concatenation. -/
theorem C2_auth_counterexample :
    checkApiKey (some " Bearer k ") "k" = Except.ok () ∧
    " Bearer k " ≠ "Bearer " ++ "k" :=
  ⟨rfl, by decide⟩

/-- C2 (amended): assuming the configured secret is non-empty,
authentication succeeds exactly when the authorization header, after
stripping surrounding whitespace, equals `"Bearer "` concatenated with the
secret; every other header value (missing, malformed, or mismatching) fails
with the 403 Forbidden error. -/
theorem C2_auth_iff_stripped_header (h : Option String) (key : String)
    (hk : key ≠ "") :
    (checkApiKey h key = Except.ok () ↔
      pyStrip (h.getD "") = "Bearer " ++ key) ∧
    (pyStrip (h.getD "") ≠ "Bearer " ++ key →
      checkApiKey h key = Except.error ⟨403, "Forbidden"⟩) := by
  by_cases hc : pyStrip (h.getD "") = "Bearer " ++ key <;>
    simp [checkApiKey, hk, hc]

/-- C2 witness: the stripped-equality criterion at concrete inputs. -/
theorem C2_auth_iff_stripped_header_witness :
    checkApiKey (some "Bearer secret") "secret" = Except.ok () ∧
    checkApiKey none "secret" = Except.error ⟨403, "Forbidden"⟩ :=
  ⟨((C2_auth_iff_stripped_header (some "Bearer secret") "secret"
      (by decide)).1).mpr (by decide),
   (C2_auth_iff_stripped_header none "secret" (by decide)).2 (by decide)⟩

/-- C3: with an empty configured inbound secret, every request fails with
the 500 server-misconfiguration error, independent of the authorization
header and distinct from the 403 authorization error; and with the inbound
secret configured and the bearer check passing, an empty inference-provider
key fails with its own 500 configuration error. -/
theorem C3_config_errors (env : Env) :
    (env.apiKey = "" →
      (analyzeHandler env).1 = Except.error ⟨500, "Server API_KEY not configured"⟩ ∧
      (⟨500, "Server API_KEY not configured"⟩ : HTTPError) ≠ ⟨403, "Forbidden"⟩) ∧
    (env.apiKey ≠ "" →
      pyStrip (env.authHeader.getD "") = "Bearer " ++ env.apiKey →
      env.geminiKey = "" →
      (analyzeHandler env).1 = Except.error ⟨500, "GEMINI_API_KEY not configured"⟩) := by
  constructor
  · intro hk
    refine ⟨?_, by decide⟩
    simp [analyzeHandler, checkApiKey, hk]
  · intro hk ha hg
    simp [analyzeHandler, checkApiKey, hk, ha, hg]

/-- C3 witness: both configuration errors at concrete environments (the
first with a header that would otherwise be rejected, showing header
independence). -/
theorem C3_config_errors_witness :
    (analyzeHandler ⟨"", "g", some "anything", 200, 200, "", ""⟩).1 =
      Except.error ⟨500, "Server API_KEY not configured"⟩ ∧
    (analyzeHandler ⟨"k", "", some "Bearer k", 200, 200, "", ""⟩).1 =
      Except.error ⟨500, "GEMINI_API_KEY not configured"⟩ :=
  ⟨((C3_config_errors ⟨"", "g", some "anything", 200, 200, "", ""⟩).1 rfl).1,
   (C3_config_errors ⟨"k", "", some "Bearer k", 200, 200, "", ""⟩).2
      (by decide) (by decide) rfl⟩

/-- C8: whenever the image GET returns a status other than 200 (and the
request got past authentication and configuration), the endpoint fails with
a 404 whose detail contains the observed status code rendered in decimal,
and the inference call is never made. -/
theorem C8_fetch_failure (env : Env)
    (hk : env.apiKey ≠ "")
    (ha : pyStrip (env.authHeader.getD "") = "Bearer " ++ env.apiKey)
    (hg : env.geminiKey ≠ "")
    (hs : env.imgStatus ≠ 200) :
    analyzeHandler env =
      (Except.error ⟨404, "Failed to fetch image from OneDrive (status " ++
        toString env.imgStatus ++ ")"⟩, false) ∧
    (toString env.imgStatus).toList <:+:
      ("Failed to fetch image from OneDrive (status " ++
        toString env.imgStatus ++ ")").toList := by
  constructor
  · simp [analyzeHandler, checkApiKey, hk, ha, hg, hs]
  · exact ⟨"Failed to fetch image from OneDrive (status ".toList, ")".toList,
      by simp [String.toList, String.data_append]⟩

/-- C8 witness: a fetched status of 404 yields the 404 response whose detail
contains the substring `404`, with the inference flag still false. -/
theorem C8_fetch_failure_witness :
    analyzeHandler ⟨"k", "g", some "Bearer k", 404, 200, "", ""⟩ =
      (Except.error ⟨404, "Failed to fetch image from OneDrive (status 404)"⟩,
        false) ∧
    "404".toList <:+: "Failed to fetch image from OneDrive (status 404)".toList :=
  C8_fetch_failure ⟨"k", "g", some "Bearer k", 404, 200, "", ""⟩
    (by decide) (by decide) (by decide) (by decide)

/-- Shaping an object: explicit form of `shapeResponse` on `Json.obj`. -/
theorem shape_obj_eq (kvs : List (String × Json)) :
    shapeResponse (Json.obj kvs) =
      (coerceStrList (if pyTruthy (dictGet kvs "detectedLanguages" (Json.arr []))
          then dictGet kvs "detectedLanguages" (Json.arr []) else Json.arr [])).map
        (fun langs =>
          { answer := pyStr (dictGet kvs "answer" (Json.str ""))
            imageSummary := pyStr (dictGet kvs "imageSummary" (Json.str ""))
            extractedText := pyStr (dictGet kvs "extractedText" (Json.str ""))
            detectedLanguages := langs
            safetyNotes := pyStr (dictGet kvs "safetyNotes" (Json.str "")) }) := by
  simp only [shapeResponse]
  cases coerceStrList (if pyTruthy (dictGet kvs "detectedLanguages" (Json.arr []))
      then dictGet kvs "detectedLanguages" (Json.arr []) else Json.arr []) <;> rfl

/-- C6: for every decoded object, each of the five fields is coerced
independently — a missing string key defaults to the empty string, a
missing `detectedLanguages` key defaults to the empty list, and whatever
value sits under `answer`, `imageSummary`, `extractedText` or `safetyNotes`
is stringified with Python `str`. -/
theorem C6_field_coercion (kvs : List (String × Json)) (r : AnalyzeResponse)
    (h : shapeResponse (Json.obj kvs) = some r) :
    (jLookup kvs "answer" = none → r.answer = "") ∧
    (jLookup kvs "imageSummary" = none → r.imageSummary = "") ∧
    (jLookup kvs "extractedText" = none → r.extractedText = "") ∧
    (jLookup kvs "safetyNotes" = none → r.safetyNotes = "") ∧
    (jLookup kvs "detectedLanguages" = none → r.detectedLanguages = []) ∧
    (∀ v, jLookup kvs "answer" = some v → r.answer = pyStr v) ∧
    (∀ v, jLookup kvs "imageSummary" = some v → r.imageSummary = pyStr v) ∧
    (∀ v, jLookup kvs "extractedText" = some v → r.extractedText = pyStr v) ∧
    (∀ v, jLookup kvs "safetyNotes" = some v → r.safetyNotes = pyStr v) := by
  rw [shape_obj_eq] at h
  cases hc : coerceStrList (if pyTruthy (dictGet kvs "detectedLanguages" (Json.arr []))
      then dictGet kvs "detectedLanguages" (Json.arr []) else Json.arr []) with
  | none => rw [hc] at h; exact absurd h (by simp)
  | some langs =>
    rw [hc] at h
    simp only [Option.map_some'] at h
    obtain rfl := (Option.some.inj h).symm
    refine ⟨fun hn => ?_, fun hn => ?_, fun hn => ?_, fun hn => ?_, fun hn => ?_,
      fun v hv => ?_, fun v hv => ?_, fun v hv => ?_, fun v hv => ?_⟩
    · simp [dictGet, hn, pyStr]
    · simp [dictGet, hn, pyStr]
    · simp [dictGet, hn, pyStr]
    · simp [dictGet, hn, pyStr]
    · simp only [dictGet, hn, Option.getD_none, pyTruthy, List.isEmpty_nil,
        Bool.not_true, if_neg, Bool.false_eq_true, not_false_eq_true,
        coerceStrList, strListOf] at hc
      exact (Option.some.inj hc).symm
    · simp [dictGet, hv]
    · simp [dictGet, hv]
    · simp [dictGet, hv]
    · simp [dictGet, hv]

/-- C6 witness: the empty object defaults every field, a numeric `answer`
is stringified, and so are non-string values under the other string keys. -/
theorem C6_field_coercion_witness :
    (⟨"", "", "", [], ""⟩ : AnalyzeResponse).answer = "" ∧
    (⟨"", "", "", [], ""⟩ : AnalyzeResponse).detectedLanguages = ([] : List String) ∧
    ("42" : String) = pyStr (Json.num "42") ∧
    ("True" : String) = pyStr (Json.bool true) ∧
    ("None" : String) = pyStr Json.null ∧
    ("7" : String) = pyStr (Json.num "7") :=
  ⟨(C6_field_coercion [] ⟨"", "", "", [], ""⟩ rfl).1 rfl,
   (C6_field_coercion [] ⟨"", "", "", [], ""⟩ rfl).2.2.2.2.1 rfl,
   (C6_field_coercion [("answer", Json.num "42")]
      ⟨"42", "", "", [], ""⟩ rfl).2.2.2.2.2.1 (Json.num "42") rfl,
   (C6_field_coercion [("imageSummary", Json.bool true)]
      ⟨"", "True", "", [], ""⟩ rfl).2.2.2.2.2.2.1 (Json.bool true) rfl,
   (C6_field_coercion [("extractedText", Json.null)]
      ⟨"", "", "None", [], ""⟩ rfl).2.2.2.2.2.2.2.1 Json.null rfl,
   (C6_field_coercion [("safetyNotes", Json.num "7")]
      ⟨"", "", "", [], "7"⟩ rfl).2.2.2.2.2.2.2.2 (Json.num "7") rfl⟩

/-- A string ending in `pat` has `pat`'s characters as a suffix. -/
theorem pyEndsWith_suffix {u pat : String} (h : pyEndsWith u pat = true) :
    pat.toList <:+ u.toList := by
  simpa [pyEndsWith, List.isSuffixOf_iff_suffix] using h

/-- Two suffixes of the same list with equal lengths coincide. -/
theorem suffix_eq_of_length {p q u : List Char}
    (hp : p <:+ u) (hq : q <:+ u) (hlen : p.length = q.length) : p = q := by
  rcases List.suffix_or_suffix_of_suffix hp hq with h | h
  · exact h.eq_of_length hlen
  · exact (h.eq_of_length hlen.symm).symm

/-- A url ending in `.jpg` does not end in `.png`. -/
theorem ends_jpg_not_png {u : String} (h : pyEndsWith u ".jpg" = true) :
    pyEndsWith u ".png" = false := by
  cases hx : pyEndsWith u ".png"
  · rfl
  · exact absurd
      (suffix_eq_of_length (pyEndsWith_suffix h) (pyEndsWith_suffix hx) (by decide))
      (by decide)

/-- A url ending in `.jpeg` does not end in `.png` (its last four characters
are `jpeg`). -/
theorem ends_jpeg_not_png {u : String} (h : pyEndsWith u ".jpeg" = true) :
    pyEndsWith u ".png" = false := by
  cases hx : pyEndsWith u ".png"
  · rfl
  · have h4 : (".jpeg".toList.drop 1) <:+ u.toList :=
      (List.drop_suffix 1 ".jpeg".toList).trans (pyEndsWith_suffix h)
    exact absurd
      (suffix_eq_of_length h4 (pyEndsWith_suffix hx) (by decide)) (by decide)

/-- A url ending in `.webp` does not end in `.png`. -/
theorem ends_webp_not_png {u : String} (h : pyEndsWith u ".webp" = true) :
    pyEndsWith u ".png" = false := by
  cases hx : pyEndsWith u ".png"
  · rfl
  · have h4 : (".webp".toList.drop 1) <:+ u.toList :=
      (List.drop_suffix 1 ".webp".toList).trans (pyEndsWith_suffix h)
    exact absurd
      (suffix_eq_of_length h4 (pyEndsWith_suffix hx) (by decide)) (by decide)

/-- A url ending in `.webp` does not end in `.jpg`. -/
theorem ends_webp_not_jpg {u : String} (h : pyEndsWith u ".webp" = true) :
    pyEndsWith u ".jpg" = false := by
  cases hx : pyEndsWith u ".jpg"
  · rfl
  · have h4 : (".webp".toList.drop 1) <:+ u.toList :=
      (List.drop_suffix 1 ".webp".toList).trans (pyEndsWith_suffix h)
    exact absurd
      (suffix_eq_of_length h4 (pyEndsWith_suffix hx) (by decide)) (by decide)

/-- A url ending in `.webp` does not end in `.jpeg`. -/
theorem ends_webp_not_jpeg {u : String} (h : pyEndsWith u ".webp" = true) :
    pyEndsWith u ".jpeg" = false := by
  cases hx : pyEndsWith u ".jpeg"
  · rfl
  · exact absurd
      (suffix_eq_of_length (pyEndsWith_suffix h) (pyEndsWith_suffix hx) (by decide))
      (by decide)

/-- C7: MIME guessing is decided case-insensitively by the url's trailing
characters — `.png` yields `image/png`, `.jpg`/`.jpeg` yield `image/jpeg`,
`.webp` yields `image/webp`, and any other ending falls back to
`image/png`. -/
theorem C7_guess_mime (url : String) :
    (pyEndsWith (pyLower url) ".png" = true → guessMime url = "image/png") ∧
    ((pyEndsWith (pyLower url) ".jpg" = true ∨
        pyEndsWith (pyLower url) ".jpeg" = true) →
      guessMime url = "image/jpeg") ∧
    (pyEndsWith (pyLower url) ".webp" = true → guessMime url = "image/webp") ∧
    (pyEndsWith (pyLower url) ".png" = false →
      pyEndsWith (pyLower url) ".jpg" = false →
      pyEndsWith (pyLower url) ".jpeg" = false →
      pyEndsWith (pyLower url) ".webp" = false →
      guessMime url = "image/png") := by
  refine ⟨fun h => ?_, fun h => ?_, fun h => ?_, fun h1 h2 h3 h4 => ?_⟩
  · simp [guessMime, h]
  · rcases h with h | h
    · simp [guessMime, ends_jpg_not_png h, h]
    · simp [guessMime, ends_jpeg_not_png h, h]
  · simp [guessMime, ends_webp_not_png h, ends_webp_not_jpg h,
      ends_webp_not_jpeg h, h]
  · simp [guessMime, h1, h2, h3, h4]

/-- C7 witness: the four cases at concrete, mixed-case urls. -/
theorem C7_guess_mime_witness :
    guessMime "photo.JPeG" = "image/jpeg" ∧ guessMime "scan.WEBP" = "image/webp" ∧
    guessMime "img.PNG" = "image/png" ∧ guessMime "anim.gif" = "image/png" :=
  ⟨(C7_guess_mime "photo.JPeG").2.1 (Or.inr (by decide)),
   (C7_guess_mime "scan.WEBP").2.2.1 (by decide),
   (C7_guess_mime "img.PNG").1 (by decide),
   (C7_guess_mime "anim.gif").2.2.2 (by decide) (by decide) (by decide) (by decide)⟩

/-- C9: round-trip — when the raw reply text is valid JSON whose parse is an
object carrying the five fields with their declared types, normalization
followed by the field coercions returns exactly that object, field for
field. -/
theorem C9_roundtrip (raw : String) (kvs : List (String × Json))
    (a b c e : String) (ds : List String)
    (hp : json_loads (pyStrip raw) = some (Json.obj kvs))
    (h1 : jLookup kvs "answer" = some (Json.str a))
    (h2 : jLookup kvs "imageSummary" = some (Json.str b))
    (h3 : jLookup kvs "extractedText" = some (Json.str c))
    (h4 : jLookup kvs "detectedLanguages" = some (Json.arr (ds.map Json.str)))
    (h5 : jLookup kvs "safetyNotes" = some (Json.str e)) :
    normalizeResponse raw = some ⟨a, b, c, ds, e⟩ := by
  unfold normalizeResponse
  rw [extract_direct hp, shape_obj_eq]
  rcases ds with _ | ⟨d, ds⟩
  · simp [dictGet, h1, h2, h3, h4, h5, pyTruthy, pyStr, coerceStrList, strListOf]
  · simp [dictGet, h1, h2, h3, h4, h5, pyTruthy, pyStr]
    exact coerceStrList_map_str (d :: ds)

/-- C9 witness: a full five-field JSON reply round-trips unchanged. -/
theorem C9_roundtrip_witness :
    normalizeResponse "\x7b\"answer\":\"a1\",\"imageSummary\":\"b1\",\"extractedText\":\"c1\",\"detectedLanguages\":[\"en\",\"ar\"],\"safetyNotes\":\"s1\"\x7d" =
      some ⟨"a1", "b1", "c1", ["en", "ar"], "s1"⟩ :=
  C9_roundtrip _
    [("answer", Json.str "a1"), ("imageSummary", Json.str "b1"),
     ("extractedText", Json.str "c1"),
     ("detectedLanguages", Json.arr [Json.str "en", Json.str "ar"]),
     ("safetyNotes", Json.str "s1")]
    "a1" "b1" "c1" "s1" ["en", "ar"] rfl rfl rfl rfl rfl rfl

/-- C10 (implicit): when the parsed object's `detectedLanguages` key is
present but holds any Python-falsy value (null, empty string, false, zero,
empty list, empty dict), the `or []` replacement makes the returned
response's `detectedLanguages` the empty list. -/
theorem C10_falsy_detected_languages (kvs : List (String × Json)) (v : Json)
    (hv : jLookup kvs "detectedLanguages" = some v)
    (hf : pyTruthy v = false) :
    ∃ r, shapeResponse (Json.obj kvs) = some r ∧ r.detectedLanguages = [] := by
  have hshape : shapeResponse (Json.obj kvs) = some
      { answer := pyStr (dictGet kvs "answer" (Json.str ""))
        imageSummary := pyStr (dictGet kvs "imageSummary" (Json.str ""))
        extractedText := pyStr (dictGet kvs "extractedText" (Json.str ""))
        detectedLanguages := []
        safetyNotes := pyStr (dictGet kvs "safetyNotes" (Json.str "")) } := by
    rw [shape_obj_eq]
    simp only [dictGet, hv, Option.getD_some, hf, Bool.false_eq_true, if_false,
      coerceStrList, strListOf, Option.map_some']
  exact ⟨_, hshape, rfl⟩

/-- C10 witness: a present-but-null `detectedLanguages` becomes the empty
list. -/
theorem C10_falsy_detected_languages_witness :
    ∃ r, shapeResponse (Json.obj [("detectedLanguages", Json.null)]) = some r ∧
      r.detectedLanguages = [] :=
  C10_falsy_detected_languages [("detectedLanguages", Json.null)] Json.null rfl rfl
